import Mathlib

/-!
Verification of the Task Store and Dependency-Aware Batch Reconciliation
Engine of the mcp-shrimp-task-manager repository.

The tool layer is embedded from the TypeScript sources directly:
src/tools/task/splitTasks.ts, src/tools/task/splitTasksRaw.ts,
src/tools/task/updateTask.ts, src/tools/task/queryTask.ts and the
verifyTask tool. The task model (src/models/taskModel.ts) is not among
the provided sources; its operations are modelled from the specification
and marked as such in their doc comments.
-/

namespace ShrimpTaskManager

/-- Task status enumeration, from types/index.ts as used by the tools. -/
inductive TaskStatus where
  | pending
  | inProgress
  | completed
  deriving DecidableEq

/-- Related-file relationship type, from the RelatedFileType enum. -/
inductive RelatedFileType where
  | toModify
  | reference
  | create
  | dependency
  | other
  deriving DecidableEq

/-- RelatedFile record. Line numbers are modelled as integers since the
schemas validate them with int and positive checks; description is
optional in the updateTask schema and required in the splitTasks schema,
so it is optional here and each schema checks its own requirement. -/
structure RelatedFile where
  path : String
  fileType : RelatedFileType
  description : Option String
  lineStart : Option Int
  lineEnd : Option Int
  deriving DecidableEq

/-- Canonical Task record, from the data model of the specification and
the fields used by the tool sources. -/
structure Task where
  id : String
  name : String
  description : String
  notes : Option String
  dependencies : List String
  relatedFiles : List RelatedFile
  implementationGuide : Option String
  verificationCriteria : Option String
  status : TaskStatus
  summary : Option String
  createdAt : Nat
  updatedAt : Nat
  deriving DecidableEq

/-- Incoming task specification of a batch, the shape accepted by the
splitTasks and splitTasksRaw schemas after boundary validation. -/
structure TaskSpec where
  name : String
  description : String
  implementationGuide : String
  dependencies : Option (List String)
  notes : Option String
  relatedFiles : Option (List RelatedFile)
  verificationCriteria : Option String
  deriving DecidableEq

/-- Modelled from the spec: TaskStore getById of the task model
(src/models/taskModel.ts is not among the provided sources); returns the
task with the given id or NotFound. -/
def getTaskById (store : List Task) (taskId : String) : Option Task :=
  store.find? (fun t => t.id == taskId)

/-- Modelled from the spec: updateTaskStatus of the task model; sets the
status of the task with the given id, refreshing updatedAt. -/
def updateTaskStatus (now : Nat) (store : List Task) (taskId : String)
    (st : TaskStatus) : List Task :=
  store.map (fun t => if t.id == taskId then { t with status := st, updatedAt := now } else t)

/-- Modelled from the spec: updateTaskSummary of the task model; sets the
summary of the task with the given id, refreshing updatedAt. -/
def updateTaskSummary (now : Nat) (store : List Task) (taskId : String)
    (s : String) : List Task :=
  store.map (fun t => if t.id == taskId then { t with summary := some s, updatedAt := now } else t)

/-- Outcome of the verifyTask tool, abstracting the rendered text of the
source into its control-flow cases. -/
inductive VerifyOutcome where
  | notFound
  | stateError
  | ok
  deriving DecidableEq

/-- The verifyTask tool from src/tools/task/verifyTask.ts: task lookup,
then the InProgress status gate, then the score-80 completion gate; when
the score reaches 80 the summary is stored and the status is set to
Completed, otherwise the store is untouched. Scores are rationals since
the schema admits any number in the 0 to 100 range. -/
def verifyTask (now : Nat) (store : List Task) (taskId : String) (score : ℚ)
    (summary : String) : VerifyOutcome × List Task :=
  match getTaskById store taskId with
  | none => (.notFound, store)
  | some task =>
    if task.status = TaskStatus.inProgress then
      if score ≥ 80 then
        (.ok, updateTaskStatus now (updateTaskSummary now store taskId summary) taskId .completed)
      else
        (.ok, store)
    else
      (.stateError, store)

/-- Arguments of the updateTaskContent tool; every field is optional
exactly as in the updateTaskContentSchema. -/
structure UpdateArgs where
  name : Option String
  description : Option String
  notes : Option String
  dependencies : Option (List String)
  relatedFiles : Option (List RelatedFile)
  implementationGuide : Option String
  verificationCriteria : Option String
  deriving DecidableEq

/-- JavaScript truthiness of an optional string value: undefined and the
empty string are falsy. -/
def strTruthy (o : Option String) : Bool :=
  o.getD "" != ""

/-- JavaScript truthiness of an optional numeric value: undefined and
zero are falsy. -/
def numTruthy (o : Option Int) : Bool :=
  o.getD 0 != 0

/-- The per-file line-range test of updateTaskContent, line for line from
the source condition: lineStart truthy without lineEnd, lineEnd truthy
without lineStart, or both truthy with lineStart greater than lineEnd. -/
def badLinePair (f : RelatedFile) : Bool :=
  (numTruthy f.lineStart && !(numTruthy f.lineEnd)) ||
  (!(numTruthy f.lineStart) && numTruthy f.lineEnd) ||
  (numTruthy f.lineStart && numTruthy f.lineEnd &&
    decide (f.lineStart.getD 0 > f.lineEnd.getD 0))

/-- The relatedFiles validation loop of updateTaskContent: it fires when
relatedFiles is provided and some file fails the line-range test. -/
def lineCheckFails (a : UpdateArgs) : Bool :=
  match a.relatedFiles with
  | some fs => fs.any badLinePair
  | none => false

/-- The empty-update test of updateTaskContent, with the source order of
the disjuncts and JavaScript truthiness for each field. -/
def emptyUpdateCheck (a : UpdateArgs) : Bool :=
  !(strTruthy a.name || strTruthy a.description || strTruthy a.notes ||
    a.dependencies.isSome || strTruthy a.implementationGuide ||
    strTruthy a.verificationCriteria || a.relatedFiles.isSome)

/-- Field-wise application of provided update fields onto a task,
refreshing updatedAt; absent fields keep the stored values. -/
def applyUpdate (now : Nat) (a : UpdateArgs) (t : Task) : Task :=
  { t with
    name := a.name.getD t.name
    description := a.description.getD t.description
    notes := match a.notes with | some n => some n | none => t.notes
    dependencies := a.dependencies.getD t.dependencies
    relatedFiles := a.relatedFiles.getD t.relatedFiles
    implementationGuide :=
      match a.implementationGuide with | some g => some g | none => t.implementationGuide
    verificationCriteria :=
      match a.verificationCriteria with | some v => some v | none => t.verificationCriteria
    updatedAt := now }

/-- Modelled from the spec: updateTaskContent of the task model
(src/models/taskModel.ts is not among the provided sources). Content
mutation is rejected with a StateError once a task is Completed,
regardless of which fields are requested; otherwise the provided fields
replace the stored ones. -/
def modelUpdateTaskContent (now : Nat) (store : List Task) (taskId : String)
    (a : UpdateArgs) : Except String (List Task) :=
  match getTaskById store taskId with
  | none => .error "task not found"
  | some task =>
    if task.status = TaskStatus.completed then
      .error "completed tasks cannot be updated"
    else
      .ok (store.map (fun t => if t.id == taskId then applyUpdate now a t else t))

/-- Outcome of the updateTaskContent tool, abstracting the rendered text
of the source into its control-flow cases. -/
inductive UpdateOutcome where
  | lineRangeError
  | emptyUpdate
  | notFound
  | applied (success : Bool)
  deriving DecidableEq

/-- The updateTaskContent tool from src/tools/task/updateTask.ts, in the
source order: relatedFiles line-range validation first, then the
empty-update check, then the task-existence lookup, then the model-level
update. -/
def updateTaskContent (now : Nat) (store : List Task) (taskId : String)
    (a : UpdateArgs) : UpdateOutcome × List Task :=
  if lineCheckFails a then
    (.lineRangeError, store)
  else if emptyUpdateCheck a then
    (.emptyUpdate, store)
  else
    match getTaskById store taskId with
    | none => (.notFound, store)
    | some _ =>
      match modelUpdateTaskContent now store taskId a with
      | .ok st => (.applied true, st)
      | .error _ => (.applied false, store)

/-- Update mode of the splitTasks and splitTasksRaw tools. -/
inductive UpdateMode where
  | append
  | overwrite
  | selective
  | clearAllTasks
  deriving DecidableEq

/-- The three modes handled by batchCreateOrUpdateTasks; the tool layer
passes append to it when running in clearAllTasks mode. -/
inductive BatchMode where
  | append
  | overwrite
  | selective
  deriving DecidableEq

/-- Embedding of a batch mode into the tool-level update mode. -/
def BatchMode.toUpdateMode : BatchMode → UpdateMode
  | .append => .append
  | .overwrite => .overwrite
  | .selective => .selective

/-- The duplicate-name loop of splitTasks and splitTasksRaw: walk the
names keeping a seen set and report a duplicate as soon as a name is
already in the set. -/
def dupNamesAux (seen : List String) : List String → Bool
  | [] => false
  | n :: rest => if seen.contains n then true else dupNamesAux (n :: seen) rest

/-- Duplicate-name check over a whole batch, starting from an empty seen
set as in the source. -/
def hasDuplicateNames (names : List String) : Bool :=
  dupNamesAux [] names

/-- Modelled from the spec: creation of a fresh Task from a specification
(the task model is not among the provided sources); a fresh id is
assigned, status starts at Pending and the summary is unset. Raw
dependency references are resolved separately before commit. -/
def mkNewTask (now : Nat) (id : String) (s : TaskSpec) : Task :=
  { id := id
    name := s.name
    description := s.description
    notes := s.notes
    dependencies := []
    relatedFiles := s.relatedFiles.getD []
    implementationGuide := some s.implementationGuide
    verificationCriteria := s.verificationCriteria
    status := .pending
    summary := none
    createdAt := now
    updatedAt := now }

/-- Modelled from the spec: the per-mode batch task for a specification.
In selective mode a specification whose name matches an existing task
updates that task in place, preserving id, createdAt and status; in
every other case a fresh task is created. -/
def batchTaskFor (now : Nat) (store : List Task) (m : BatchMode) (id : String)
    (s : TaskSpec) : Task :=
  match m with
  | .selective =>
    match store.find? (fun t => t.name == s.name) with
    | some t =>
      { t with
        description := s.description
        notes := s.notes
        implementationGuide := some s.implementationGuide
        verificationCriteria := s.verificationCriteria
        relatedFiles := s.relatedFiles.getD t.relatedFiles
        updatedAt := now }
    | none => mkNewTask now id s
  | _ => mkNewTask now id s

/-- Modelled from the spec: the existing-task pool used by dependency
resolution for each mode; overwrite retains only Completed tasks. -/
def poolExisting (store : List Task) (m : BatchMode) : List Task :=
  match m with
  | .append => store
  | .overwrite => store.filter (fun t => t.status == TaskStatus.completed)
  | .selective => store

/-- Modelled from the spec: DependencyResolver resolution of one raw
reference. Exact id match over both pools comes first; failing that, an
exact name match preferring a same-batch task; zero matches is a
resolution failure. -/
def resolveRef (pool batch : List Task) (r : String) : Option String :=
  match (pool ++ batch).find? (fun t => t.id == r) with
  | some t => some t.id
  | none =>
    match batch.find? (fun t => t.name == r) with
    | some t => some t.id
    | none =>
      match pool.find? (fun t => t.name == r) with
      | some t => some t.id
      | none => none

/-- Modelled from the spec: resolution of a whole raw reference list; a
single unresolved reference fails the whole list with the offending
reference as the error. -/
def resolveDeps (pool batch : List Task) : List String → Except String (List String)
  | [] => .ok []
  | r :: rs =>
    match resolveRef pool batch r with
    | none => .error r
    | some id =>
      match resolveDeps pool batch rs with
      | .error e => .error e
      | .ok ids => .ok (id :: ids)

/-- Modelled from the spec: resolution of the dependencies of every batch
task against the mode pool and the batch itself; any failure aborts the
whole batch before any mutation. -/
def resolveBatch (pool batch : List Task) :
    List (Task × TaskSpec) → Except String (List Task)
  | [] => .ok []
  | (t, s) :: rest =>
    match resolveDeps pool batch (s.dependencies.getD []) with
    | .error e => .error e
    | .ok ids =>
      match resolveBatch pool batch rest with
      | .error e => .error e
      | .ok ts => .ok ({ t with dependencies := ids } :: ts)

/-- Modelled from the spec: the committed store for each mode. Append
keeps every existing task; overwrite keeps only Completed ones;
selective replaces name-matched existing tasks in place and appends the
genuinely new ones. -/
def commitBatch (store : List Task) (m : BatchMode) (finals : List Task) : List Task :=
  match m with
  | .append => store ++ finals
  | .overwrite => store.filter (fun t => t.status == TaskStatus.completed) ++ finals
  | .selective =>
    store.map (fun t => ((finals.find? (fun b => b.id == t.id)).getD t)) ++
      finals.filter (fun b => store.all (fun t => !(t.id == b.id)))

/-- Modelled from the spec: batchCreateOrUpdateTasks of the task model
(src/models/taskModel.ts is not among the provided sources). Batch tasks
are built per mode with fresh ids from idGen, every dependency reference
is resolved before anything is committed, and a resolution failure
returns an error leaving the store untouched. On success the committed
store and the created or updated tasks are returned. -/
def batchCreateOrUpdateTasks (idGen : Nat → String) (now : Nat)
    (store : List Task) (specs : List TaskSpec) (m : BatchMode) :
    Except String (List Task × List Task) :=
  let pairs := specs.enum.map (fun p => (batchTaskFor now store m (idGen p.1) p.2, p.2))
  let batch := pairs.map (fun p => p.1)
  match resolveBatch (poolExisting store m) batch pairs with
  | .error e => .error e
  | .ok finals => .ok (commitBatch store m finals, finals)

/-- Modelled from the spec: clearAllTasks of the task model. The backup
snapshot of the full current store must succeed first; on success the
snapshot is returned as the backup handle and the store is cleared, on
failure nothing changes. Backup I/O success is a boolean parameter of
the embedding. -/
def clearAllTasksModel (store : List Task) (backupOk : Bool) : Option (List Task) :=
  if backupOk then some store else none

/-- Outcome of the splitTasks tool: the duplicate-name early return, or a
finished run carrying the success flag, the backup handle surfaced in
the ephemeral task-creation result, and the created tasks. -/
inductive SplitOutcome where
  | duplicateName
  | done (success : Bool) (backup : Option (List Task)) (created : List Task)
  deriving DecidableEq

/-- The non-clearAllTasks arm of splitTasks: one call into the batch
reconciler, keeping the prior store on error. -/
def splitNonClear (idGen : Nat → String) (now : Nat) (store : List Task)
    (specs : List TaskSpec) (m : BatchMode) : SplitOutcome × List Task :=
  match batchCreateOrUpdateTasks idGen now store specs m with
  | .ok (st, created) => (.done true none created, st)
  | .error _ => (.done false none [], store)

/-- The splitTasks tool from src/tools/task/splitTasks.ts (splitTasksRaw
shares this body after its own parsing): duplicate-name check first; in
clearAllTasks mode the model clear (backup plus discard) runs before the
batch creation in append mode against the cleared store, and a creation
error at that point leaves the already-cleared store; the other three
modes call the batch reconciler directly. -/
def splitTasks (idGen : Nat → String) (now : Nat) (store : List Task)
    (mode : UpdateMode) (specs : List TaskSpec) (backupOk : Bool) :
    SplitOutcome × List Task :=
  if hasDuplicateNames (specs.map (fun s => s.name)) then
    (.duplicateName, store)
  else
    match mode with
    | .clearAllTasks =>
      match clearAllTasksModel store backupOk with
      | none => (.done false none [], store)
      | some backup =>
        match batchCreateOrUpdateTasks idGen now [] specs .append with
        | .ok (st, created) => (.done true (some backup) created, st)
        | .error _ => (.done false (some backup) [], [])
    | .append => splitNonClear idGen now store specs .append
    | .overwrite => splitNonClear idGen now store specs .overwrite
    | .selective => splitNonClear idGen now store specs .selective

/-- Leading-match test on character lists: the first list is an initial
segment of the second. -/
def leadsWith : List Char → List Char → Bool
  | [], _ => true
  | _ :: _, [] => false
  | a :: as, b :: bs => a == b && leadsWith as bs

/-- Substring test on character lists: the needle occurs contiguously
somewhere in the haystack. -/
def containsSub (needle : List Char) : List Char → Bool
  | [] => leadsWith needle []
  | c :: rest => leadsWith needle (c :: rest) || containsSub needle rest

/-- Case-insensitive substring test between strings, via character-wise
lowercasing. -/
def containsCI (hay token : String) : Bool :=
  containsSub (token.data.map Char.toLower) (hay.data.map Char.toLower)

/-- Whitespace tokenizer: splits a character list into maximal runs of
non-whitespace characters, the accumulator holding the current token in
reverse. -/
def tokenizeAux (acc : List Char) : List Char → List (List Char)
  | [] => if acc.isEmpty then [] else [acc.reverse]
  | c :: cs =>
    if c.isWhitespace then
      if acc.isEmpty then tokenizeAux [] cs else acc.reverse :: tokenizeAux [] cs
    else
      tokenizeAux (c :: acc) cs

/-- Whitespace tokens of a query string. -/
def queryTokens (q : String) : List String :=
  (tokenizeAux [] q.data).map (fun cs => String.mk cs)

/-- Pagination metadata returned by the search engine. -/
structure Pagination where
  currentPage : Nat
  totalPages : Nat
  totalResults : Nat
  deriving DecidableEq

/-- Search result: the page slice plus pagination metadata. -/
structure SearchResult where
  tasks : List Task
  pagination : Pagination
  deriving DecidableEq

/-- Modelled from the spec: the match predicate of the SearchEngine
(src/models/taskModel.ts is not among the provided sources). Id mode is
exact or leading match of the query against task ids; keyword mode
requires every whitespace token of the query to occur case-insensitively
in the name, description or notes of the task. -/
def matchingTasks (store : List Task) (query : String) (isId : Bool) : List Task :=
  if isId then
    store.filter (fun t => t.id == query || leadsWith query.data t.id.data)
  else
    store.filter (fun t =>
      (queryTokens query).all (fun tok =>
        containsCI t.name tok || containsCI t.description tok ||
          containsCI (t.notes.getD "") tok))

/-- Modelled from the spec: searchTasksWithCommand of the task model.
The matching tasks are paginated in store order: the page slice is
returned together with totalResults, totalPages and currentPage. -/
def searchTasksWithCommand (store : List Task) (query : String) (isId : Bool)
    (page pageSize : Nat) : SearchResult :=
  let found := matchingTasks store query isId
  { tasks := (found.drop ((page - 1) * pageSize)).take pageSize
    pagination :=
      { currentPage := page
        totalPages := (found.length + pageSize - 1) / pageSize
        totalResults := found.length } }

/-- The pagination fields of the queryTask schema from
src/tools/task/queryTask.ts: the query must be non-empty, page (when
provided) a positive integer, pageSize (when provided) a positive
integer between 1 and 20. -/
def queryTaskSchemaOk (query : String) (page pageSize : Option Int) : Bool :=
  decide (1 ≤ query.length) &&
  (match page with
   | none => true
   | some p => decide (0 < p)) &&
  (match pageSize with
   | none => true
   | some n => decide (0 < n) && decide (1 ≤ n) && decide (n ≤ 20))

/-- The per-file checks of the relatedFiles entry of the splitTasks and
splitTasksRaw schemas: non-empty path, non-empty required description,
and each of lineStart and lineEnd, when provided, a positive integer.
The schema has no joint condition on the pair. -/
def splitRelatedFileOk (f : RelatedFile) : Bool :=
  decide (1 ≤ f.path.length) &&
  (match f.description with
   | some d => decide (1 ≤ d.length)
   | none => false) &&
  (match f.lineStart with
   | none => true
   | some n => decide (0 < n)) &&
  (match f.lineEnd with
   | none => true
   | some n => decide (0 < n))

/-- The per-specification checks of the splitTasks schema: name at most
100 characters, description at least 10, and every related file passing
its entry checks. -/
def splitSpecOk (s : TaskSpec) : Bool :=
  decide (s.name.length ≤ 100) &&
  decide (10 ≤ s.description.length) &&
  (match s.relatedFiles with
   | none => true
   | some fs => fs.all splitRelatedFileOk)

/-- The batch-level checks of the splitTasks schema: at least one task
and every specification passing its checks. -/
def splitTasksInputOk (specs : List TaskSpec) : Bool :=
  decide (1 ≤ specs.length) && specs.all splitSpecOk

/-- Spec-side well-formedness of a lineStart and lineEnd pair, following
the specification words: both absent, or both present with lineStart at
most lineEnd. -/
def pairWellFormed (f : RelatedFile) : Bool :=
  match f.lineStart, f.lineEnd with
  | none, none => true
  | some a, some b => decide (a ≤ b)
  | _, _ => false

/-- Spec-side malformedness of a lineStart and lineEnd pair: exactly one
present, or both present with lineStart greater than lineEnd. -/
def pairMalformed (f : RelatedFile) : Bool :=
  !(pairWellFormed f)

/-- Positivity of the provided line numbers of a file, the property the
schemas guarantee on inputs that reach the tools. -/
def linesPositive (f : RelatedFile) : Bool :=
  (match f.lineStart with
   | none => true
   | some n => decide (0 < n)) &&
  (match f.lineEnd with
   | none => true
   | some n => decide (0 < n))

/-- Concrete id generator used by witnesses and counterexamples. -/
def gid : Nat → String := fun n => "id-" ++ toString n

/-- Concrete pending task used by witnesses and counterexamples. -/
def sampleTask : Task :=
  { id := "11111111-1111-4111-8111-111111111111"
    name := "existing task"
    description := "a task already in the store"
    notes := none
    dependencies := []
    relatedFiles := []
    implementationGuide := none
    verificationCriteria := none
    status := .pending
    summary := none
    createdAt := 1
    updatedAt := 1 }

/-- Concrete in-progress task used by witnesses. -/
def sampleInProgress : Task :=
  { sampleTask with status := .inProgress }

/-- Concrete specification with an unresolvable dependency reference. -/
def specGhost : TaskSpec :=
  { name := "brand new task"
    description := "a task with a ghost dependency"
    implementationGuide := "do the work"
    dependencies := some ["no-such-task"]
    notes := none
    relatedFiles := none
    verificationCriteria := none }

/-- Concrete dependency-free specification. -/
def specPlain : TaskSpec :=
  { name := "plain new task"
    description := "a task without dependencies"
    implementationGuide := "do the plain work"
    dependencies := none
    notes := none
    relatedFiles := none
    verificationCriteria := none }

/-- Concrete related file with lineStart present and lineEnd absent. -/
def badFile : RelatedFile :=
  { path := "src/index.ts"
    fileType := .reference
    description := some "schema reference file"
    lineStart := some 5
    lineEnd := none }

/-- Concrete specification carrying the malformed related file. -/
def specBadFile : TaskSpec :=
  { name := "task with one bound"
    description := "carries a file with only lineStart"
    implementationGuide := "edit the file"
    dependencies := none
    notes := none
    relatedFiles := some [badFile]
    verificationCriteria := none }

/-- Update arguments with every optional field absent. -/
def emptyArgs : UpdateArgs :=
  ⟨none, none, none, none, none, none, none⟩

/-- Update arguments carrying only the malformed related file. -/
def argsBadFile : UpdateArgs :=
  ⟨none, none, none, none, some [badFile], none, none⟩

theorem find_map_id_pres (f : Task → Task) (hf : ∀ t, (f t).id = t.id)
    (l : List Task) (i : String) :
    (l.map f).find? (fun t => t.id == i) = (l.find? (fun t => t.id == i)).map f := by
  induction l with
  | nil => rfl
  | cons a as ih =>
    simp only [List.map_cons, List.find?_cons, hf a]
    cases h : (a.id == i) with
    | false => simpa using ih
    | true => simp

theorem dupNamesAux_true_iff (l : List String) : ∀ seen : List String,
    dupNamesAux seen l = true ↔ (¬ l.Nodup ∨ ∃ n ∈ l, n ∈ seen) := by
  induction l with
  | nil => intro seen; simp [dupNamesAux]
  | cons n rest ih =>
    intro seen
    by_cases h : n ∈ seen
    · have hc : seen.contains n = true := by simpa using h
      simp only [dupNamesAux, hc, if_true]
      constructor
      · intro _
        exact Or.inr ⟨n, by simp, h⟩
      · intro _; trivial
    · have hc : seen.contains n = false := by simpa using h
      simp only [dupNamesAux, hc, Bool.false_eq_true, if_false]
      rw [ih (n :: seen)]
      simp only [List.nodup_cons, List.mem_cons]
      constructor
      · rintro (hnd | ⟨m, hm, hmem | hmem⟩)
        · exact Or.inl (fun hand => hnd hand.2)
        · subst hmem
          exact Or.inl (fun hand => hand.1 hm)
        · exact Or.inr ⟨m, Or.inr hm, hmem⟩
      · rintro (hnd | ⟨m, hm | hm, hmem⟩)
        · by_cases hmem : n ∈ rest
          · exact Or.inr ⟨n, hmem, Or.inl rfl⟩
          · exact Or.inl (fun hr => hnd ⟨hmem, hr⟩)
        · subst hm; exact absurd hmem h
        · exact Or.inr ⟨m, hm, Or.inr hmem⟩

theorem hasDuplicateNames_iff (l : List String) :
    hasDuplicateNames l = true ↔ ¬ l.Nodup := by
  rw [hasDuplicateNames, dupNamesAux_true_iff]
  simp

theorem hasDuplicateNames_eq_false (l : List String) (h : l.Nodup) :
    hasDuplicateNames l = false := by
  cases hb : hasDuplicateNames l with
  | false => rfl
  | true => exact absurd h ((hasDuplicateNames_iff l).mp hb)

theorem badLinePair_eq_pairMalformed (f : RelatedFile)
    (h : linesPositive f = true) : badLinePair f = pairMalformed f := by
  rcases f with ⟨p, ty, d, ls, le⟩
  simp only [linesPositive, Bool.and_eq_true] at h
  cases ls <;> cases le <;>
    first
    | rfl
    | · rw [Bool.eq_iff_iff]
        simp only [decide_eq_true_eq] at h
        simp [badLinePair, pairMalformed, pairWellFormed, numTruthy]
        omega

theorem splitTasks_dup_eq (idGen : Nat → String) (now : Nat) (store : List Task)
    (mode : UpdateMode) (specs : List TaskSpec) (backupOk : Bool)
    (hdup : ¬ (specs.map (fun s => s.name)).Nodup) :
    splitTasks idGen now store mode specs backupOk = (.duplicateName, store) := by
  have h : hasDuplicateNames (specs.map (fun s => s.name)) = true :=
    (hasDuplicateNames_iff _).mpr hdup
  simp [splitTasks, h]

theorem lineCheckFails_of_malformed (a : UpdateArgs) (fs : List RelatedFile)
    (hfs : a.relatedFiles = some fs)
    (hpos : fs.all linesPositive = true)
    (hbad : fs.any pairMalformed = true) :
    lineCheckFails a = true := by
  rw [lineCheckFails, hfs]
  rcases List.any_eq_true.mp hbad with ⟨f, hf, hfbad⟩
  refine List.any_eq_true.mpr ⟨f, hf, ?_⟩
  rw [badLinePair_eq_pairMalformed f (List.all_eq_true.mp hpos f hf)]
  exact hfbad

theorem lineCheckFails_of_wellFormed (a : UpdateArgs) (fs : List RelatedFile)
    (hfs : a.relatedFiles = some fs)
    (hpos : fs.all linesPositive = true)
    (hgood : fs.all pairWellFormed = true) :
    lineCheckFails a = false := by
  rw [lineCheckFails, hfs]
  rw [List.any_eq_false]
  intro f hf
  rw [badLinePair_eq_pairMalformed f (List.all_eq_true.mp hpos f hf)]
  simp [pairMalformed, List.all_eq_true.mp hgood f hf]

theorem splitTasks_nonclear_error (idGen : Nat → String) (now : Nat)
    (store : List Task) (m : BatchMode) (specs : List TaskSpec) (backupOk : Bool)
    (e : String) (hdup : (specs.map (fun s => s.name)).Nodup)
    (herr : batchCreateOrUpdateTasks idGen now store specs m = .error e) :
    splitTasks idGen now store m.toUpdateMode specs backupOk =
      (.done false none [], store) := by
  have h := hasDuplicateNames_eq_false _ hdup
  cases m <;> simp [splitTasks, BatchMode.toUpdateMode, h, splitNonClear, herr]

theorem splitTasks_clear_dep_error (idGen : Nat → String) (now : Nat)
    (store : List Task) (specs : List TaskSpec) (e : String)
    (hdup : (specs.map (fun s => s.name)).Nodup)
    (herr : batchCreateOrUpdateTasks idGen now [] specs .append = .error e) :
    splitTasks idGen now store .clearAllTasks specs true =
      (.done false (some store) [], []) := by
  have h := hasDuplicateNames_eq_false _ hdup
  simp [splitTasks, h, clearAllTasksModel, herr]

theorem updateTaskContent_fst_ne_lineRange (now : Nat) (store : List Task)
    (taskId : String) (a : UpdateArgs) (h : lineCheckFails a = false) :
    (updateTaskContent now store taskId a).1 ≠ .lineRangeError := by
  unfold updateTaskContent
  rw [h]
  simp only [Bool.false_eq_true, if_false]
  split
  · simp
  · split
    · simp
    · split <;> simp

/-- Claim C1 (amended): the duplicate-name check precedes any mutation in
every mode and its failure leaves the prior store untouched; a dependency
resolution failure also leaves the prior store untouched in append,
overwrite and selective modes; in clearAllTasks mode, however, dependency
resolution runs only after the backup and the unconditional clear, so a
dependency failure there leaves the cleared store together with the
backup handle, not the prior state. -/
theorem splitTasks_atomicity_amended :
    (∀ (idGen : Nat → String) (now : Nat) (store : List Task) (mode : UpdateMode)
        (specs : List TaskSpec) (backupOk : Bool),
        ¬ (specs.map (fun s => s.name)).Nodup →
        splitTasks idGen now store mode specs backupOk = (.duplicateName, store)) ∧
    (∀ (idGen : Nat → String) (now : Nat) (store : List Task) (m : BatchMode)
        (specs : List TaskSpec) (backupOk : Bool) (e : String),
        (specs.map (fun s => s.name)).Nodup →
        batchCreateOrUpdateTasks idGen now store specs m = .error e →
        splitTasks idGen now store m.toUpdateMode specs backupOk =
          (.done false none [], store)) ∧
    (∀ (idGen : Nat → String) (now : Nat) (store : List Task)
        (specs : List TaskSpec) (e : String),
        (specs.map (fun s => s.name)).Nodup →
        batchCreateOrUpdateTasks idGen now [] specs .append = .error e →
        splitTasks idGen now store .clearAllTasks specs true =
          (.done false (some store) [], [])) :=
  ⟨fun idGen now store mode specs backupOk hdup =>
      splitTasks_dup_eq idGen now store mode specs backupOk hdup,
   fun idGen now store m specs backupOk e hdup herr =>
      splitTasks_nonclear_error idGen now store m specs backupOk e hdup herr,
   fun idGen now store specs e hdup herr =>
      splitTasks_clear_dep_error idGen now store specs e hdup herr⟩

/-- Witness for C1 at a concrete input: an append batch with an
unresolvable dependency leaves the concrete one-task store unchanged. -/
theorem splitTasks_atomicity_amended_witness :
    splitTasks gid 5 [sampleTask] .append [specGhost] true =
      (.done false none [], [sampleTask]) :=
  splitTasks_atomicity_amended.2.1 gid 5 [sampleTask] .append [specGhost] true
    "no-such-task" (by decide) rfl

/-- Counterexample to C1 as stated: in clearAllTasks mode a batch that
fails dependency resolution does not leave the store in its prior state;
the backup and the unconditional clear have already happened, so the
store ends cleared. -/
theorem splitTasks_clearAll_dependency_failure_not_atomic :
    (splitTasks gid 5 [sampleTask] .clearAllTasks [specGhost] true).2 = [] ∧
    ([] : List Task) ≠ [sampleTask] :=
  ⟨by decide, by decide⟩

/-- Claim C2: a clearAllTasks batch first takes the backup snapshot of the
full current store; a backup failure aborts with the prior store and a
failed result, while a backup success discards every task including
Completed ones, creates the submitted specifications as an append batch
against the empty set, and surfaces the backup handle. -/
theorem splitTasks_clearAllTasks_backup_then_append
    (idGen : Nat → String) (now : Nat) (store : List Task) (specs : List TaskSpec)
    (st created : List Task)
    (hdup : (specs.map (fun s => s.name)).Nodup)
    (hok : batchCreateOrUpdateTasks idGen now [] specs .append = .ok (st, created)) :
    splitTasks idGen now store .clearAllTasks specs false =
      (.done false none [], store) ∧
    splitTasks idGen now store .clearAllTasks specs true =
      (.done true (some store) created, st) := by
  have h := hasDuplicateNames_eq_false _ hdup
  constructor <;> simp [splitTasks, h, clearAllTasksModel, hok]

/-- Witness for C2 at a concrete input: clearing a one-task store with a
dependency-free specification surfaces the prior store as backup and
creates exactly the new task. -/
theorem splitTasks_clearAllTasks_backup_then_append_witness :
    splitTasks gid 5 [sampleTask] .clearAllTasks [specPlain] true =
      (.done true (some [sampleTask]) [mkNewTask 5 "id-0" specPlain],
        [mkNewTask 5 "id-0" specPlain]) :=
  (splitTasks_clearAllTasks_backup_then_append gid 5 [sampleTask] [specPlain]
      [mkNewTask 5 "id-0" specPlain] [mkNewTask 5 "id-0" specPlain]
      (by decide) rfl).2

/-- Claim C3: verifying an InProgress task with a score of at least 80
stores the summary and completes the task, while a score below 80 leaves
the store, and so the status and the absent summary, untouched. -/
theorem verifyTask_inProgress_score_gate
    (now : Nat) (store : List Task) (taskId : String) (score : ℚ)
    (summary : String) (task : Task)
    (hfind : getTaskById store taskId = some task)
    (hst : task.status = TaskStatus.inProgress) :
    (score ≥ 80 →
      verifyTask now store taskId score summary =
        (.ok, updateTaskStatus now (updateTaskSummary now store taskId summary)
          taskId .completed) ∧
      getTaskById (verifyTask now store taskId score summary).2 taskId =
        some { task with
          summary := some summary
          status := .completed
          updatedAt := now }) ∧
    (score < 80 → verifyTask now store taskId score summary = (.ok, store)) := by
  have hfind2 : store.find? (fun t => t.id == taskId) = some task := hfind
  have htid : (task.id == taskId) = true := by
    simpa using List.find?_some hfind2
  constructor
  · intro hs
    have hrun : verifyTask now store taskId score summary =
        (.ok, updateTaskStatus now (updateTaskSummary now store taskId summary)
          taskId .completed) := by
      simp [verifyTask, hfind, hst, hs]
    refine ⟨hrun, ?_⟩
    rw [hrun]
    show getTaskById
        (updateTaskStatus now (updateTaskSummary now store taskId summary)
          taskId .completed) taskId = _
    unfold getTaskById updateTaskStatus updateTaskSummary
    rw [find_map_id_pres _ (fun t => by by_cases h : (t.id == taskId) <;> simp [h]),
      find_map_id_pres _ (fun t => by by_cases h : (t.id == taskId) <;> simp [h]),
      hfind2]
    have heq : task.id = taskId := by simpa using htid
    simp [heq]
  · intro hs
    have hns : ¬ score ≥ 80 := not_le.mpr hs
    simp [verifyTask, hfind, hst, hns]

/-- Witness for C3 at a concrete input: a score of 79 on a concrete
InProgress task leaves the one-task store unchanged. -/
theorem verifyTask_inProgress_score_gate_witness :
    verifyTask 9 [sampleInProgress] sampleInProgress.id 79
      "needs more work on the tests" = (.ok, [sampleInProgress]) :=
  (verifyTask_inProgress_score_gate 9 [sampleInProgress] sampleInProgress.id 79
      "needs more work on the tests" sampleInProgress rfl rfl).2 (by decide)

/-- Claim C4: a batch containing two specifications with the same name is
rejected in every update mode with the duplicate-name validation error;
the prior store is unchanged, no backup is taken, and no tasks are
cleared or created. -/
theorem splitTasks_duplicate_name_rejected
    (idGen : Nat → String) (now : Nat) (store : List Task) (mode : UpdateMode)
    (specs : List TaskSpec) (backupOk : Bool)
    (hdup : ¬ (specs.map (fun s => s.name)).Nodup) :
    splitTasks idGen now store mode specs backupOk = (.duplicateName, store) :=
  splitTasks_dup_eq idGen now store mode specs backupOk hdup

/-- Witness for C4 at a concrete input: two specifications with the same
name in clearAllTasks mode leave the concrete store unchanged. -/
theorem splitTasks_duplicate_name_rejected_witness :
    splitTasks gid 5 [sampleTask] .clearAllTasks [specPlain, specPlain] true =
      (.duplicateName, [sampleTask]) :=
  splitTasks_duplicate_name_rejected gid 5 [sampleTask] .clearAllTasks
    [specPlain, specPlain] true (by decide)

/-- Claim C5 (amended): the lineStart and lineEnd pair invariant is
enforced on content update: for schema-valid positive bounds, a file with
exactly one bound present, or with lineStart greater than lineEnd, makes
the operation fail with the line-range validation error, while files with
both bounds present and ordered, or both absent, never trigger that
error; the batch submission schema, by contrast, checks each bound
positive independently and enforces no pair invariant at all. -/
theorem relatedFiles_line_pair_enforcement_amended :
    (∀ (now : Nat) (store : List Task) (taskId : String) (a : UpdateArgs)
        (fs : List RelatedFile),
        a.relatedFiles = some fs → fs.all linesPositive = true →
        fs.any pairMalformed = true →
        updateTaskContent now store taskId a = (.lineRangeError, store)) ∧
    (∀ (now : Nat) (store : List Task) (taskId : String) (a : UpdateArgs)
        (fs : List RelatedFile),
        a.relatedFiles = some fs → fs.all linesPositive = true →
        fs.all pairWellFormed = true →
        (updateTaskContent now store taskId a).1 ≠ .lineRangeError) ∧
    (∀ f : RelatedFile,
        1 ≤ f.path.length →
        (∃ d, f.description = some d ∧ 1 ≤ d.length) →
        linesPositive f = true →
        splitRelatedFileOk f = true) := by
  refine ⟨?_, ?_, ?_⟩
  · intro now store taskId a fs hfs hpos hbad
    have h := lineCheckFails_of_malformed a fs hfs hpos hbad
    simp [updateTaskContent, h]
  · intro now store taskId a fs hfs hpos hgood
    exact updateTaskContent_fst_ne_lineRange now store taskId a
      (lineCheckFails_of_wellFormed a fs hfs hpos hgood)
  · intro f hpath hdesc hpos
    rcases hdesc with ⟨d, hd, hdlen⟩
    rcases f with ⟨p, ty, de, ls, le⟩
    simp only [linesPositive, Bool.and_eq_true] at hpos
    simp only at hd
    subst hd
    simp_all [splitRelatedFileOk]

/-- Witness for C5 at a concrete input: updating with a file carrying
only lineStart fails with the line-range error and leaves the concrete
store unchanged. -/
theorem relatedFiles_line_pair_enforcement_amended_witness :
    updateTaskContent 9 [sampleTask] "no-such-id" argsBadFile =
      (.lineRangeError, [sampleTask]) :=
  relatedFiles_line_pair_enforcement_amended.1 9 [sampleTask] "no-such-id"
    argsBadFile [badFile] rfl (by decide) (by decide)

/-- Counterexample to C5 as stated: a related file with lineStart present
and lineEnd absent passes the splitTasks schema and the batch is accepted
and stored, so the pair invariant is not enforced on batch submission. -/
theorem relatedFiles_pair_not_checked_in_splitTasksSchema :
    splitTasksInputOk [specBadFile] = true ∧
    pairWellFormed badFile = false ∧
    splitTasks gid 5 [] .append [specBadFile] true =
      (.done true none [mkNewTask 5 "id-0" specBadFile],
        [mkNewTask 5 "id-0" specBadFile]) ∧
    (mkNewTask 5 "id-0" specBadFile).relatedFiles = [badFile] :=
  ⟨by decide, by decide, by decide, by decide⟩

/-- Claim C6: verifying a task whose status is Pending or Completed fails
with the state error and leaves the store, and so the task, entirely
unchanged, for every score between 0 and 100. -/
theorem verifyTask_non_inProgress_state_error
    (now : Nat) (store : List Task) (taskId : String) (score : ℚ)
    (summary : String) (task : Task)
    (hfind : getTaskById store taskId = some task)
    (hst : task.status = TaskStatus.pending ∨ task.status = TaskStatus.completed)
    (h0 : 0 ≤ score) (h1 : score ≤ 100) :
    verifyTask now store taskId score summary = (.stateError, store) := by
  have hne : ¬ task.status = TaskStatus.inProgress := by
    rcases hst with h | h <;> simp [h]
  simp [verifyTask, hfind, hne]

/-- Witness for C6 at a concrete input: a score of 95 on a concrete
Pending task fails with the state error and leaves the store unchanged. -/
theorem verifyTask_non_inProgress_state_error_witness :
    verifyTask 9 [sampleTask] sampleTask.id 95 "attempted early verification" =
      (.stateError, [sampleTask]) :=
  verifyTask_non_inProgress_state_error 9 [sampleTask] sampleTask.id 95
    "attempted early verification" sampleTask rfl (Or.inl rfl)
    (by decide) (by decide)

/-- Claim C7: for a task id absent from the store, verifyTask returns the
explicit notFound failure with the store unchanged; updateTaskContent
never mutates the store, and returns the explicit notFound failure on
every call that passes the line-range and empty-update checks. -/
theorem missing_task_notFound_no_mutation
    (now : Nat) (store : List Task) (taskId : String) (score : ℚ)
    (summary : String) (hmiss : getTaskById store taskId = none) :
    verifyTask now store taskId score summary = (.notFound, store) ∧
    (∀ a : UpdateArgs, (updateTaskContent now store taskId a).2 = store) ∧
    (∀ a : UpdateArgs, lineCheckFails a = false → emptyUpdateCheck a = false →
      updateTaskContent now store taskId a = (.notFound, store)) := by
  refine ⟨by simp [verifyTask, hmiss], ?_, ?_⟩
  · intro a
    unfold updateTaskContent
    split
    · rfl
    · split
      · rfl
      · rw [hmiss]
  · intro a hline hne
    simp [updateTaskContent, hline, hne, hmiss]

/-- Witness for C7 at a concrete input: verifying and updating a missing
id both return notFound and leave the concrete store unchanged. -/
theorem missing_task_notFound_no_mutation_witness :
    verifyTask 9 [sampleTask] "no-such-id" 95 "verification of a ghost" =
      (.notFound, [sampleTask]) ∧
    updateTaskContent 9 [sampleTask] "no-such-id"
      { emptyArgs with name := some "renamed" } = (.notFound, [sampleTask]) := by
  have h := missing_task_notFound_no_mutation 9 [sampleTask] "no-such-id" 95
    "verification of a ghost" rfl
  exact ⟨h.1, h.2.2 { emptyArgs with name := some "renamed" } rfl rfl⟩

/-- Claim C8: the queryTask schema accepts provided pagination inputs
exactly when page is at least 1 and pageSize is between 1 and 20, and the
search result carries the page slice of the matching tasks together with
totalResults, totalPages and currentPage metadata. -/
theorem queryTask_pagination_bounds_and_metadata :
    (∀ (q : String) (p ps : Int),
        queryTaskSchemaOk q (some p) (some ps) = true ↔
          (1 ≤ q.length ∧ 1 ≤ p ∧ 1 ≤ ps ∧ ps ≤ 20)) ∧
    (∀ (store : List Task) (q : String) (isId : Bool) (page ps : Nat),
        (searchTasksWithCommand store q isId page ps).tasks =
          ((matchingTasks store q isId).drop ((page - 1) * ps)).take ps ∧
        (searchTasksWithCommand store q isId page ps).pagination.totalResults =
          (matchingTasks store q isId).length ∧
        (searchTasksWithCommand store q isId page ps).pagination.totalPages =
          ((matchingTasks store q isId).length + ps - 1) / ps ∧
        (searchTasksWithCommand store q isId page ps).pagination.currentPage =
          page) := by
  constructor
  · intro q p ps
    simp only [queryTaskSchemaOk, Bool.and_eq_true, decide_eq_true_eq]
    omega
  · intro store q isId page ps
    exact ⟨rfl, rfl, rfl, rfl⟩

/-- Witness for C8 at a concrete input: page 1 with pageSize 5 and a
non-empty query is accepted by the schema. -/
theorem queryTask_pagination_bounds_and_metadata_witness :
    queryTaskSchemaOk "alpha" (some 1) (some 5) = true :=
  (queryTask_pagination_bounds_and_metadata.1 "alpha" 1 5).mpr (by decide)

/-- Claim C9: a call to updateTaskContent with every optional field
absent returns the empty-update failure with the store unchanged; the
result is the same for every store, so the task is neither read nor
mutated. -/
theorem updateTaskContent_empty_update_early_return
    (now : Nat) (store : List Task) (taskId : String) :
    updateTaskContent now store taskId emptyArgs = (.emptyUpdate, store) := rfl

/-- Claim C10: the relatedFiles line-range validation of updateTaskContent
runs before the task-existence check: with schema-valid positive bounds,
a malformed pair yields the line-range validation error even when the
task id does not exist in the store, and no notFound is reported. -/
theorem updateTaskContent_line_check_before_existence
    (now : Nat) (store : List Task) (taskId : String) (a : UpdateArgs)
    (fs : List RelatedFile)
    (hmiss : getTaskById store taskId = none)
    (hfs : a.relatedFiles = some fs)
    (hpos : fs.all linesPositive = true)
    (hbad : fs.any pairMalformed = true) :
    updateTaskContent now store taskId a = (.lineRangeError, store) ∧
    updateTaskContent now store taskId a ≠ (.notFound, store) := by
  have h := lineCheckFails_of_malformed a fs hfs hpos hbad
  constructor
  · simp [updateTaskContent, h]
  · simp [updateTaskContent, h]

/-- Witness for C10 at a concrete input: a malformed pair on a missing id
yields the line-range error, not notFound. -/
theorem updateTaskContent_line_check_before_existence_witness :
    updateTaskContent 9 [sampleTask] "no-such-id" argsBadFile =
      (.lineRangeError, [sampleTask]) :=
  (updateTaskContent_line_check_before_existence 9 [sampleTask] "no-such-id"
    argsBadFile [badFile] rfl rfl (by decide) (by decide)).1

end ShrimpTaskManager
